import Mathlib

/-!
Shallow embedding of the MultiDirectionTooltip component
(src/components/multi-direction-tooltip: types + component implementation),
together with proofs about its geometry calculator, delay scheduler,
visibility state machine and interaction router.

Coordinates are modelled as rationals (the source works with JS numbers
obtained from getBoundingClientRect and arithmetic on them; every claim
under study involves only field arithmetic and comparisons).
-/

namespace Tooltip

/-- `PopupPlacement` enum from types.ts. -/
inductive PopupPlacement
  | top
  | left
  | right
  | bottom
deriving DecidableEq, Repr

/-- `PopupType` enum from types.ts. -/
inductive PopupType
  | hover
  | click
deriving DecidableEq, Repr

/-- One popup configuration cell (`BasePopupMetadata`, extended with the
hover-only fields of `HoverPopupMetadata`; the click path simply never reads
the hover-only fields, mirroring the TypeScript subtyping).  Content and the
callback functions themselves are not modelled as values; callback
invocations are recorded in an observable log instead. -/
structure PopupSpec where
  offset : Option ℚ
  disableFlip : Bool
  applyDefaultClassNames : Bool
  openDelay : Option ℕ
  closeDelay : Option ℕ
  enterable : Bool
deriving DecidableEq, Repr

/-- The record stored per placement in `MultiDirectionPopupConfig`:
up to one click spec and one hover spec. -/
structure PlacementEntry where
  click : Option PopupSpec
  hover : Option PopupSpec
deriving DecidableEq, Repr

/-- `MultiDirectionPopupConfig`: a JS object keyed by placement.  Modelled as
an association list so that `Object.entries` iteration order is preserved;
JS object literals have distinct keys, which proofs that need it take as the
`Nodup` hypothesis on the keys. -/
abbrev Config := List (PopupPlacement × PlacementEntry)

/-- First-match association-list lookup: `config[placement]`. -/
def lookupEntry (config : Config) (p : PopupPlacement) : Option PlacementEntry :=
  (config.find? (fun x => x.1 = p)).map (·.2)

/-- `config[placement]?.[type]`. -/
def lookupSpec (config : Config) (p : PopupPlacement) (t : PopupType) : Option PopupSpec :=
  (lookupEntry config p).bind (fun e => match t with
    | PopupType.click => e.click
    | PopupType.hover => e.hover)

/-- A DOM rectangle as used by the component: `getBoundingClientRect` always
returns `bottom = top + height` and `right = left + width`, so the derived
accessors below are faithful. -/
structure Rect where
  top : ℚ
  left : ℚ
  width : ℚ
  height : ℚ
deriving DecidableEq, Repr

def Rect.bottom (r : Rect) : ℚ := r.top + r.height

def Rect.right (r : Rect) : ℚ := r.left + r.width

/-- Width/height pair; `calculatePosition` only reads `width` and `height`
of the popup rectangle, so the fallback `{ width: 200, height: 40 }` and a
measured rect are both a `Size`. -/
structure Size where
  width : ℚ
  height : ℚ
deriving DecidableEq, Repr

/-- An absolute position `{ top, left }`. -/
structure Position where
  top : ℚ
  left : ℚ
deriving DecidableEq, Repr

/-- The environment a position computation runs against: the trigger ref
(mounted or not, and its rect), the popup measurement if the overlay is
mounted (`popupRef.current`), the component props `defaultOffset` and
`disableFlip`, and the viewport (`window.innerWidth` / `innerHeight`). -/
structure Env where
  triggerMounted : Bool
  triggerRect : Rect
  measured : Option Size
  defaultOffset : ℚ
  disableFlip : Bool
  viewportWidth : ℚ
  viewportHeight : ℚ
deriving DecidableEq, Repr

/-- The `positions` record literal inside `calculatePosition`
(lines 497–514 of the component): the base position of each placement. -/
def positionsFor (triggerRect : Rect) (popupRect : Size) (offset : ℚ) :
    PopupPlacement → Position
  | PopupPlacement.top =>
      { top := triggerRect.top - popupRect.height - offset
        left := triggerRect.left + (triggerRect.width - popupRect.width) / 2 }
  | PopupPlacement.bottom =>
      { top := triggerRect.bottom + offset
        left := triggerRect.left + (triggerRect.width - popupRect.width) / 2 }
  | PopupPlacement.left =>
      { top := triggerRect.top + (triggerRect.height - popupRect.height) / 2
        left := triggerRect.left - popupRect.width - offset }
  | PopupPlacement.right =>
      { top := triggerRect.top + (triggerRect.height - popupRect.height) / 2
        left := triggerRect.right + offset }

/-- Result of `calculatePosition` in the mounted case. -/
structure CalcResult where
  position : Position
  placement : PopupPlacement
deriving DecidableEq, Repr

/-- The guard of the early-return branch:
`tooltipConfig?.disableFlip || disableFlip`, where
`tooltipConfig = config[placement]?.[activePopup?.type ?? PopupType.HOVER]`.
Note the lookup is keyed by the *currently active* popup's type (defaulting
to hover), not by the type of the popup being opened. -/
def flipDisabledFor (config : Config) (env : Env) (activeType : Option PopupType)
    (placement : PopupPlacement) : Bool :=
  (match lookupSpec config placement (activeType.getD PopupType.hover) with
    | some c => c.disableFlip
    | none => false) || env.disableFlip

/-- `calculatePosition` (component lines 481–553).  Returns `none` for the
source's `return {}` when the trigger ref is not mounted.  `activeType` is
the `activePopup?.type` value the closure reads. -/
def calculatePosition (config : Config) (env : Env) (activeType : Option PopupType)
    (placement : PopupPlacement) : Option CalcResult :=
  if env.triggerMounted then
    let triggerRect := env.triggerRect
    let popupRect := env.measured.getD { width := 200, height := 40 }
    let offset := env.defaultOffset
    let positions := positionsFor triggerRect popupRect offset
    if flipDisabledFor config env activeType placement then
      some { position := positions placement, placement := placement }
    else
      let viewportLeft : ℚ := 0
      let viewportTop : ℚ := 0
      let viewportRight := env.viewportWidth
      let viewportBottom := env.viewportHeight
      let viewportPos := positions placement
      let finalPlacement :=
        if viewportPos.left < viewportLeft then PopupPlacement.right
        else if viewportPos.left + popupRect.width > viewportRight then PopupPlacement.left
        else if viewportPos.top < viewportTop then PopupPlacement.bottom
        else if viewportPos.top + popupRect.height > viewportBottom then PopupPlacement.top
        else placement
      some { position := positions finalPlacement, placement := finalPlacement }
  else
    none

/-- The component's `activePopup` state value
`{ placement, type, position }` (position may be `undefined` when the
trigger was unmounted at pre-calculation time). -/
structure ActivePopup where
  placement : PopupPlacement
  type : PopupType
  position : Option Position
deriving DecidableEq, Repr

/-- What an armed `setTimeout` callback will do when it fires.  The open
callback captured the requested `(placement, type)` (whose spec's
`onOpenCallback` it invokes), the pre-computed final placement and the
pre-computed position; the close callback captured the active popup's
`(placement, type)` for `onCloseCallback`. -/
inductive TimerAction
  | fireOpen (placement : PopupPlacement) (type : PopupType)
      (finalPlacement : PopupPlacement) (position : Option Position)
  | fireClose (placement : PopupPlacement) (type : PopupType)
deriving DecidableEq, Repr

/-- Observable events: lifecycle callbacks invoked on the host, and the
imperative focus call on the trigger. -/
inductive CbEvent
  | onOpen (placement : PopupPlacement) (type : PopupType)
  | onClose (placement : PopupPlacement) (type : PopupType)
  | onMouseEnter (placement : PopupPlacement) (type : PopupType)
  | onMouseLeave (placement : PopupPlacement) (type : PopupType)
  | focusTrigger
deriving DecidableEq, Repr

/-- Component + runtime state.  `timers` is the set of timers armed in the
JS runtime (id, delay ms, action), in arming order; `timeoutRef` is the
component's single `timeoutRef.current`; `nextId` generates fresh timer
ids; `log` records callback invocations in order. -/
structure CompState where
  isOpen : Bool
  activePopup : Option ActivePopup
  timers : List (ℕ × ℕ × TimerAction)
  timeoutRef : Option ℕ
  nextId : ℕ
  log : List CbEvent
deriving DecidableEq, Repr

/-- The initial state after mount: closed, nothing armed. -/
def initialState : CompState :=
  { isOpen := false, activePopup := none, timers := [], timeoutRef := none
    nextId := 0, log := [] }

/-- `window.setTimeout`: arms a fresh timer, returns its id. -/
def setTimeout (s : CompState) (delay : ℕ) (a : TimerAction) : ℕ × CompState :=
  (s.nextId,
   { s with timers := s.timers ++ [(s.nextId, delay, a)], nextId := s.nextId + 1 })

/-- `window.clearTimeout`: disarms the timer with the given id (no-op on an
id that already fired or was cleared). -/
def clearTimeout (s : CompState) (id : ℕ) : CompState :=
  { s with timers := s.timers.filter (fun tr => tr.1 ≠ id) }

/-- The `if (timeoutRef.current !== null) window.clearTimeout(...)` prelude
shared by `handleOpen` and `handleClose`. -/
def cancelPending (s : CompState) : CompState :=
  match s.timeoutRef with
  | some id => clearTimeout s id
  | none => s

/-- The timer action armed by `handleOpen` (component lines 567–577): the
pre-calculated result, with `finalPlacement = preCalculatedPosition.placement
|| placement`.  `activeType` is the `activePopup?.type` the
`calculatePosition` closure reads. -/
def openTimerAction (config : Config) (env : Env) (activeType : Option PopupType)
    (placement : PopupPlacement) (type : PopupType) : TimerAction :=
  let pre := calculatePosition config env activeType placement
  TimerAction.fireOpen placement type
    ((pre.map (·.placement)).getD placement) (pre.map (·.position))

/-- `handleOpen` (component lines 555–582).  No-op when
`config[placement]?.[type]` is undefined; otherwise computes the delay
(hover `openDelay || 0`, click 0), cancels a pending timer, pre-calculates
the position, and arms the open timer. -/
def handleOpen (config : Config) (env : Env) (placement : PopupPlacement)
    (type : PopupType) (s : CompState) : CompState :=
  match lookupSpec config placement type with
  | none => s
  | some spec =>
    let delay := if type = PopupType.hover then spec.openDelay.getD 0 else 0
    let s := cancelPending s
    let a := openTimerAction config env (s.activePopup.map (·.type)) placement type
    let r := setTimeout s delay a
    { r.2 with timeoutRef := some r.1 }

/-- `handleClose` (component lines 584–604).  No-op when nothing is active
or the active `(placement, type)` has no spec; otherwise computes the delay
(hover `closeDelay || 0`, click 0), cancels a pending timer, and arms the
close timer. -/
def handleClose (config : Config) (s : CompState) : CompState :=
  match s.activePopup with
  | none => s
  | some ap =>
    match lookupSpec config ap.placement ap.type with
    | none => s
    | some spec =>
      let delay := if ap.type = PopupType.hover then spec.closeDelay.getD 0 else 0
      let s := cancelPending s
      let r := setTimeout s delay (TimerAction.fireClose ap.placement ap.type)
      { r.2 with timeoutRef := some r.1 }

/-- Run a fired timer's callback body (the closures at component
lines 571–579 and 599–603). -/
def runTimerAction (a : TimerAction) (s : CompState) : CompState :=
  match a with
  | TimerAction.fireOpen placement type finalPlacement position =>
      { s with isOpen := true
               activePopup := some { placement := finalPlacement, type := type
                                     position := position }
               log := s.log ++ [CbEvent.onOpen placement type] }
  | TimerAction.fireClose placement type =>
      { s with isOpen := false
               activePopup := none
               log := s.log ++ [CbEvent.onClose placement type] }

/-- The event loop fires the earliest armed timer (under the scheduler
invariant there is at most one). -/
def fireFirstTimer (s : CompState) : CompState :=
  match s.timers with
  | [] => s
  | (_, _, a) :: rest => runTimerAction a { s with timers := rest }

/-- One iteration of the `Object.entries(config).forEach` loop in the
trigger click/keydown handlers: call `handleOpen(placement, CLICK)` when
the entry defines a click spec. -/
def clickFoldStep (config : Config) (env : Env) (acc : CompState)
    (entry : PopupPlacement × PlacementEntry) : CompState :=
  match entry.2.click with
  | some _ => handleOpen config env entry.1 PopupType.click acc
  | none => acc

/-- Trigger `onClick` handler (component lines 722–729), also the body of
the Enter/Space `onKeyDown` handler (lines 730–740): for every entry of
`Object.entries(config)` with a click spec, call `handleOpen(placement,
CLICK)`.  The host's `triggerCallbacks.onClick` is outside the modelled
state. -/
def onTriggerClick (config : Config) (env : Env) (s : CompState) : CompState :=
  config.foldl (clickFoldStep config env) s

/-- Trigger `onMouseEnter` handler (component lines 741–748): open the first
configured hover entry, if any. -/
def onTriggerMouseEnter (config : Config) (env : Env) (s : CompState) : CompState :=
  match config.find? (fun entry => entry.2.hover.isSome) with
  | some entry => handleOpen config env entry.1 PopupType.hover s
  | none => s

/-- Trigger `onMouseLeave` handler (component lines 749–758): when the
active popup is hover-mode and its spec is not `enterable`, close; a
click-mode active popup (or no active popup) leaves the state untouched.
The host's `triggerCallbacks.onMouseLeave` is outside the modelled state. -/
def onTriggerMouseLeave (config : Config) (s : CompState) : CompState :=
  match s.activePopup with
  | some ap =>
    if ap.type = PopupType.hover then
      let popupConfig := lookupSpec config ap.placement PopupType.hover
      if ¬ ((popupConfig.map (·.enterable)).getD false) then handleClose config s
      else s
    else s
  | none => s

/-- Keys the document `keydown` handler distinguishes. -/
inductive Key
  | escape
  | tab (shift : Bool)
  | other
deriving DecidableEq, Repr

/-- Document-level `keydown` handler (component lines 623–650).  Returns
early when `isOpen` is false.  On Escape: `handleClose()` then
`triggerRef.current?.focus()` (logged as `focusTrigger`).  The Tab branch
only moves DOM focus between the overlay's focusable descendants and never
touches the component state or timers, so on the modelled state it is the
identity. -/
def onDocumentKeyDown (config : Config) (key : Key) (s : CompState) : CompState :=
  if s.isOpen then
    match key with
    | Key.escape =>
      let s := handleClose config s
      { s with log := s.log ++ [CbEvent.focusTrigger] }
    | Key.tab _ => s
    | Key.other => s
  else s

/-- The ARIA/data attributes the overlay `motion.div` is rendered with
(component lines 816 and 845–850). -/
structure OverlayAttrs where
  role : String
  ariaLive : String
  ariaModal : Bool
  ariaHidden : Bool
  tabIndex : ℤ
  dataPlacement : PopupPlacement
deriving DecidableEq, Repr

/-- Attribute values as a function of `isOpen` and the active popup, read
off the JSX of the overlay element. -/
def overlayAttrs (isOpen : Bool) (ap : ActivePopup) : OverlayAttrs :=
  { role := "tooltip"
    ariaLive := if ap.type = PopupType.hover then "polite" else "assertive"
    ariaModal := ap.type = PopupType.click
    ariaHidden := ¬ isOpen
    tabIndex := if ap.type = PopupType.click then 0 else -1
    dataPlacement := ap.placement }

/-- Scheduler invariant: every armed timer is the one `timeoutRef` points
to, and at most one timer is armed. -/
def SchedInv (s : CompState) : Prop :=
  (∀ tr ∈ s.timers, s.timeoutRef = some tr.1) ∧ s.timers.length ≤ 1

instance (s : CompState) : Decidable (SchedInv s) := by
  unfold SchedInv; infer_instance

/-- An intent arriving at the state machine: an open request, a close
request, or the event loop firing the pending timer. -/
inductive Intent
  | openPopup (placement : PopupPlacement) (type : PopupType)
  | closePopup
  | timerFire
deriving DecidableEq, Repr

/-- Dispatch one intent to the corresponding handler. -/
def stepIntent (config : Config) (env : Env) (s : CompState) : Intent → CompState
  | Intent.openPopup p t => handleOpen config env p t s
  | Intent.closePopup => handleClose config s
  | Intent.timerFire => fireFirstTimer s

/-- Process a sequence of intents in arrival order. -/
def runIntents (config : Config) (env : Env) (s : CompState) (l : List Intent) : CompState :=
  l.foldl (stepIntent config env) s

/-- The placements of the configuration entries that define a click spec,
in `Object.entries` iteration order. -/
def clickPlacements (config : Config) : List PopupPlacement :=
  config.filterMap (fun entry => if entry.2.click.isSome then some entry.1 else none)

/-- Written from the spec's words (§4.1): the single-axis first-match flip
rule applied to a base position, to be compared against the source's
`calculatePosition`. -/
def specFlipRule (basePos : Position) (overlay : Size)
    (viewportWidth viewportHeight : ℚ) (p : PopupPlacement) : PopupPlacement :=
  if basePos.left < 0 then PopupPlacement.right
  else if basePos.left + overlay.width > viewportWidth then PopupPlacement.left
  else if basePos.top < 0 then PopupPlacement.bottom
  else if basePos.top + overlay.height > viewportHeight then PopupPlacement.top
  else p

/-- Written from the spec's words: the overlay is horizontally centered on
the trigger (their horizontal midlines coincide). -/
def horizontallyCentered (triggerRect : Rect) (popupRect : Size) (pos : Position) : Prop :=
  pos.left + popupRect.width / 2 = triggerRect.left + triggerRect.width / 2

/-- Written from the spec's words: the overlay is vertically centered on
the trigger (their vertical midlines coincide). -/
def verticallyCentered (triggerRect : Rect) (popupRect : Size) (pos : Position) : Prop :=
  pos.top + popupRect.height / 2 = triggerRect.top + triggerRect.height / 2

/-- A popup spec with every optional field at its absent/default value. -/
def plainSpec : PopupSpec :=
  { offset := none, disableFlip := false, applyDefaultClassNames := true
    openDelay := none, closeDelay := none, enterable := false }

/-- The trigger rect the repository's tests mock
(`top:100, left:100, width:100, height:30`), with a 1024×768 viewport. -/
def envCentered : Env :=
  { triggerMounted := true
    triggerRect := { top := 100, left := 100, width := 100, height := 30 }
    measured := none, defaultOffset := 8, disableFlip := false
    viewportWidth := 1024, viewportHeight := 768 }

/-- The near-top-edge trigger rect from the repository's disableFlip tests
(`top:10, left:400, width:100, height:30`), with a 1024×768 viewport. -/
def envNearTop : Env :=
  { triggerMounted := true
    triggerRect := { top := 10, left := 400, width := 100, height := 30 }
    measured := none, defaultOffset := 8, disableFlip := false
    viewportWidth := 1024, viewportHeight := 768 }

/-- A configuration whose only entry is a TOP click spec with
`disableFlip: true`. -/
def cfgClickNoFlip : Config :=
  [(PopupPlacement.top,
    { click := some { plainSpec with disableFlip := true }, hover := none })]

/-- A configuration whose only entry is a TOP hover spec carrying the given
per-entry `offset`. -/
def cfgWithOffset (o : Option ℚ) : Config :=
  [(PopupPlacement.top, { click := none, hover := some { plainSpec with offset := o } })]

/-- A configuration with a single TOP click spec (no overrides). -/
def cfgClickTop : Config :=
  [(PopupPlacement.top, { click := some plainSpec, hover := none })]

/-- A configuration with TOP and RIGHT click specs (two click pairs, in
that iteration order). -/
def cfgTwoClicks : Config :=
  [(PopupPlacement.top, { click := some plainSpec, hover := none }),
   (PopupPlacement.right, { click := some plainSpec, hover := none })]

/-- A configuration with a single TOP hover spec. -/
def cfgHoverTop : Config :=
  [(PopupPlacement.top, { click := none, hover := some plainSpec })]

/-- A state with the TOP click overlay open and no timer pending. -/
def sOpenClick : CompState :=
  { isOpen := true
    activePopup := some { placement := PopupPlacement.top, type := PopupType.click
                          position := none }
    timers := [], timeoutRef := some 0, nextId := 1, log := [] }

/-- The run of §8's Escape scenario: open the TOP click popup, let the open
timer fire, send Escape, let the close timer fire. -/
def escapeScenario : CompState :=
  fireFirstTimer (onDocumentKeyDown cfgClickTop Key.escape
    (fireFirstTimer
      (handleOpen cfgClickTop envCentered PopupPlacement.top PopupType.click initialState)))

/-! ## Scheduler lemmas (shared) -/

theorem cancelPending_eq (s : CompState) (h : SchedInv s) :
    cancelPending s = { s with timers := [] } := by
  obtain ⟨io, a, tm, tr, n, lg⟩ := s
  cases tr with
  | none =>
    have hnil : tm = [] := by
      cases hts : tm with
      | nil => rfl
      | cons x xs =>
        have hx := h.1 x (by rw [hts]; exact List.mem_cons_self x xs)
        simp at hx
    subst hnil
    rfl
  | some id =>
    unfold cancelPending clearTimeout
    simp only
    congr 1
    apply List.eq_nil_iff_forall_not_mem.mpr
    intro x hx
    rcases List.mem_filter.mp hx with ⟨hmem, hne⟩
    have hid := h.1 x hmem
    simp only [Option.some.injEq] at hid
    simp [hid] at hne

theorem handleOpen_eq (config : Config) (env : Env) (p : PopupPlacement)
    (t : PopupType) (s : CompState) (spec : PopupSpec)
    (h : SchedInv s) (hl : lookupSpec config p t = some spec) :
    handleOpen config env p t s =
      { s with
          timers := [(s.nextId,
                      (if t = PopupType.hover then spec.openDelay.getD 0 else 0),
                      openTimerAction config env (s.activePopup.map ActivePopup.type) p t)]
          timeoutRef := some s.nextId
          nextId := s.nextId + 1 } := by
  unfold handleOpen
  rw [hl, cancelPending_eq s h]
  rfl

theorem handleClose_eq (config : Config) (s : CompState) (ap : ActivePopup)
    (spec : PopupSpec) (h : SchedInv s) (hap : s.activePopup = some ap)
    (hl : lookupSpec config ap.placement ap.type = some spec) :
    handleClose config s =
      { s with
          timers := [(s.nextId,
                      (if ap.type = PopupType.hover then spec.closeDelay.getD 0 else 0),
                      TimerAction.fireClose ap.placement ap.type)]
          timeoutRef := some s.nextId
          nextId := s.nextId + 1 } := by
  have hc := cancelPending_eq s h
  obtain ⟨io, a, tm, tr, n, lg⟩ := s
  simp only at hap
  subst hap
  unfold handleClose
  simp only [hl, hc, setTimeout, List.nil_append]

theorem schedInv_handleOpen (config : Config) (env : Env) (p : PopupPlacement)
    (t : PopupType) (s : CompState) (h : SchedInv s) :
    SchedInv (handleOpen config env p t s) := by
  cases hl : lookupSpec config p t with
  | none => unfold handleOpen; rw [hl]; exact h
  | some spec =>
    rw [handleOpen_eq config env p t s spec h hl]
    constructor
    · intro tr htr
      simp only [List.mem_singleton] at htr
      simp [htr]
    · simp

theorem schedInv_handleClose (config : Config) (s : CompState) (h : SchedInv s) :
    SchedInv (handleClose config s) := by
  cases hap : s.activePopup with
  | none => unfold handleClose; rw [hap]; exact h
  | some ap =>
    cases hl : lookupSpec config ap.placement ap.type with
    | none => unfold handleClose; rw [hap]; simp only; rw [hl]; exact h
    | some spec =>
      rw [handleClose_eq config s ap spec h hap hl]
      constructor
      · intro tr htr
        simp only [List.mem_singleton] at htr
        simp [htr]
      · simp

theorem timers_runTimerAction (a : TimerAction) (s : CompState) :
    (runTimerAction a s).timers = s.timers ∧
    (runTimerAction a s).timeoutRef = s.timeoutRef := by
  cases a <;> simp [runTimerAction]

theorem schedInv_fireFirstTimer (s : CompState) (h : SchedInv s) :
    SchedInv (fireFirstTimer s) := by
  unfold fireFirstTimer
  cases hts : s.timers with
  | nil => exact h
  | cons x rest =>
    have hrest : rest = [] := by
      have := h.2
      rw [hts] at this
      simp at this
      exact this
    subst hrest
    obtain ⟨x1, x2, a⟩ := x
    constructor
    · intro tr htr
      rw [(timers_runTimerAction a _).1] at htr
      simp at htr
    · rw [(timers_runTimerAction a _).1]
      simp

theorem schedInv_stepIntent (config : Config) (env : Env) (s : CompState)
    (i : Intent) (h : SchedInv s) : SchedInv (stepIntent config env s i) := by
  cases i with
  | openPopup p t => exact schedInv_handleOpen config env p t s h
  | closePopup => exact schedInv_handleClose config s h
  | timerFire => exact schedInv_fireFirstTimer s h

theorem schedInv_runIntents (config : Config) (env : Env) (l : List Intent)
    (s : CompState) (h : SchedInv s) : SchedInv (runIntents config env s l) := by
  induction l generalizing s with
  | nil => exact h
  | cons i rest ih =>
    exact ih (stepIntent config env s i) (schedInv_stepIntent config env s i h)

theorem handleOpen_fields (config : Config) (env : Env) (p : PopupPlacement)
    (t : PopupType) (s : CompState) :
    (handleOpen config env p t s).isOpen = s.isOpen ∧
    (handleOpen config env p t s).activePopup = s.activePopup ∧
    (handleOpen config env p t s).log = s.log := by
  unfold handleOpen
  cases hl : lookupSpec config p t with
  | none => exact ⟨rfl, rfl, rfl⟩
  | some spec =>
    obtain ⟨io, a, tm, tr, n, lg⟩ := s
    cases tr <;> simp [cancelPending, clearTimeout, setTimeout]

theorem lookupEntry_of_mem (config : Config) (p : PopupPlacement) (e : PlacementEntry)
    (hnd : (config.map Prod.fst).Nodup) (hmem : (p, e) ∈ config) :
    lookupEntry config p = some e := by
  induction config with
  | nil => simp at hmem
  | cons x rest ih =>
    rcases List.mem_cons.mp hmem with h | h
    · subst h
      simp [lookupEntry, List.find?]
    · have hne : x.1 ≠ p := by
        intro hx
        have hp : p ∈ rest.map Prod.fst := List.mem_map_of_mem Prod.fst h
        rw [List.map_cons] at hnd
        exact (List.nodup_cons.mp hnd).1 (hx ▸ hp)
      have ih' := ih (List.nodup_cons.mp (by rwa [List.map_cons] at hnd)).2 h
      unfold lookupEntry at ih' ⊢
      rw [List.find?_cons_of_neg _ (by simpa using hne)]
      exact ih'

theorem lookupSpec_click_of_mem (config : Config) (p : PopupPlacement)
    (e : PlacementEntry) (hnd : (config.map Prod.fst).Nodup) (hmem : (p, e) ∈ config) :
    lookupSpec config p PopupType.click = e.click := by
  unfold lookupSpec
  rw [lookupEntry_of_mem config p e hnd hmem]
  rfl

theorem clickFold_spec (config : Config) (env : Env)
    (l : List (PopupPlacement × PlacementEntry)) (acc : CompState)
    (h : SchedInv acc)
    (hmem : ∀ pe ∈ l, ∀ spec, pe.2.click = some spec →
        lookupSpec config pe.1 PopupType.click = some spec) :
    SchedInv (List.foldl (clickFoldStep config env) acc l) ∧
    (List.foldl (clickFoldStep config env) acc l).isOpen = acc.isOpen ∧
    (List.foldl (clickFoldStep config env) acc l).activePopup = acc.activePopup ∧
    (List.foldl (clickFoldStep config env) acc l).log = acc.log ∧
    ((l.filterMap (fun entry => if entry.2.click.isSome then some entry.1 else none)) = [] →
        List.foldl (clickFoldStep config env) acc l = acc) ∧
    (∀ pLast,
        (l.filterMap
          (fun entry => if entry.2.click.isSome then some entry.1 else none)).getLast?
          = some pLast →
        ∃ id, (List.foldl (clickFoldStep config env) acc l).timers
          = [(id, 0,
              openTimerAction config env (acc.activePopup.map ActivePopup.type)
                pLast PopupType.click)]) := by
  induction l generalizing acc with
  | nil =>
    refine ⟨h, rfl, rfl, rfl, fun _ => rfl, fun pLast hp => ?_⟩
    simp at hp
  | cons pe rest ih =>
    cases hc : pe.2.click with
    | none =>
      have hstep : clickFoldStep config env acc pe = acc := by
        unfold clickFoldStep; rw [hc]
      have hmem' : ∀ pe' ∈ rest, ∀ spec, pe'.2.click = some spec →
          lookupSpec config pe'.1 PopupType.click = some spec :=
        fun pe' hpe' => hmem pe' (List.mem_cons_of_mem pe hpe')
      obtain ⟨i1, i2, i3, i4, i5, i6⟩ := ih acc h hmem'
      rw [List.foldl_cons, hstep]
      refine ⟨i1, i2, i3, i4, ?_, ?_⟩
      · intro hnil
        rw [List.filterMap_cons] at hnil
        simp only [hc, Option.isSome_none, Bool.false_eq_true, if_false] at hnil
        exact i5 hnil
      · intro pLast hp
        rw [List.filterMap_cons] at hp
        simp only [hc, Option.isSome_none, Bool.false_eq_true, if_false] at hp
        exact i6 pLast hp
    | some spec =>
      have hlk : lookupSpec config pe.1 PopupType.click = some spec :=
        hmem pe (List.mem_cons_self pe rest) spec hc
      have heq := handleOpen_eq config env pe.1 PopupType.click acc spec h hlk
      have hstep : clickFoldStep config env acc pe
          = handleOpen config env pe.1 PopupType.click acc := by
        unfold clickFoldStep; rw [hc]
      have hop := handleOpen_fields config env pe.1 PopupType.click acc
      have hinv' := schedInv_handleOpen config env pe.1 PopupType.click acc h
      have hmem' : ∀ pe' ∈ rest, ∀ spec, pe'.2.click = some spec →
          lookupSpec config pe'.1 PopupType.click = some spec :=
        fun pe' hpe' => hmem pe' (List.mem_cons_of_mem pe hpe')
      obtain ⟨i1, i2, i3, i4, i5, i6⟩ :=
        ih (handleOpen config env pe.1 PopupType.click acc) hinv' hmem'
      rw [List.foldl_cons, hstep]
      have hfm : (pe :: rest).filterMap
          (fun entry => if entry.2.click.isSome then some entry.1 else none)
          = pe.1 :: rest.filterMap
              (fun entry => if entry.2.click.isSome then some entry.1 else none) := by
        rw [List.filterMap_cons]
        simp [hc]
      refine ⟨i1, by rw [i2, hop.1], by rw [i3, hop.2.1], by rw [i4, hop.2.2],
        ?_, ?_⟩
      · intro hnil
        rw [hfm] at hnil
        exact absurd hnil (List.cons_ne_nil _ _)
      · intro pLast hp
        rw [hfm] at hp
        cases hrest : rest.filterMap
            (fun entry => if entry.2.click.isSome then some entry.1 else none) with
        | nil =>
          rw [hrest] at hp
          simp only [List.getLast?_singleton, Option.some.injEq] at hp
          subst hp
          refine ⟨acc.nextId, ?_⟩
          rw [i5 hrest, heq]
          simp [hop.2.1]
        | cons q qs =>
          rw [hrest, List.getLast?_cons_cons] at hp
          obtain ⟨id, hid⟩ := i6 pLast (by rw [hrest]; exact hp)
          refine ⟨id, ?_⟩
          rw [hid, hop.2.1]

/-! ## Claims -/

/-- C1: for every requested placement with flipping allowed, the position
computation applies the single-axis first-match flip rule to the base
position (left < 0 → right; left + width > viewport width → left;
top < 0 → bottom; top + height > viewport height → top; else keep), and
the returned position is the base-position formula re-evaluated at the
resulting placement — exactly one flip, no retry, no clamping. -/
theorem C1_flip_rule (config : Config) (env : Env) (activeType : Option PopupType)
    (placement : PopupPlacement)
    (hm : env.triggerMounted = true)
    (hf : flipDisabledFor config env activeType placement = false) :
    calculatePosition config env activeType placement =
      some { position :=
               positionsFor env.triggerRect
                 (env.measured.getD { width := 200, height := 40 }) env.defaultOffset
                 (specFlipRule
                   (positionsFor env.triggerRect
                     (env.measured.getD { width := 200, height := 40 }) env.defaultOffset
                     placement)
                   (env.measured.getD { width := 200, height := 40 })
                   env.viewportWidth env.viewportHeight placement)
             placement :=
               specFlipRule
                 (positionsFor env.triggerRect
                   (env.measured.getD { width := 200, height := 40 }) env.defaultOffset
                   placement)
                 (env.measured.getD { width := 200, height := 40 })
                 env.viewportWidth env.viewportHeight placement } := by
  simp [calculatePosition, specFlipRule, hm, hf]

/-- C1 witness: a trigger near the top edge with a TOP request and flipping
allowed; the theorem applies and the flip rule resolves the placement. -/
theorem C1_flip_rule_witness :
    envNearTop.triggerMounted = true ∧
    flipDisabledFor cfgClickTop envNearTop none PopupPlacement.top = false ∧
    calculatePosition cfgClickTop envNearTop none PopupPlacement.top =
      some { position :=
               positionsFor envNearTop.triggerRect
                 (envNearTop.measured.getD { width := 200, height := 40 })
                 envNearTop.defaultOffset
                 (specFlipRule
                   (positionsFor envNearTop.triggerRect
                     (envNearTop.measured.getD { width := 200, height := 40 })
                     envNearTop.defaultOffset PopupPlacement.top)
                   (envNearTop.measured.getD { width := 200, height := 40 })
                   envNearTop.viewportWidth envNearTop.viewportHeight PopupPlacement.top)
             placement :=
               specFlipRule
                 (positionsFor envNearTop.triggerRect
                   (envNearTop.measured.getD { width := 200, height := 40 })
                   envNearTop.defaultOffset PopupPlacement.top)
                 (envNearTop.measured.getD { width := 200, height := 40 })
                 envNearTop.viewportWidth envNearTop.viewportHeight PopupPlacement.top } :=
  ⟨rfl, rfl, C1_flip_rule cfgClickTop envNearTop none PopupPlacement.top rfl rfl⟩

/-- C2: for every placement, the base (unflipped) position equals the
documented formula — top: trigger.top − overlay.height − offset,
horizontally centered; bottom: trigger.bottom + offset, horizontally
centered; left: trigger.left − overlay.width − offset, vertically
centered; right: trigger.right + offset, vertically centered. -/
theorem C2_base_position_formula (triggerRect : Rect) (popupRect : Size) (offset : ℚ) :
    ((positionsFor triggerRect popupRect offset PopupPlacement.top).top
        = triggerRect.top - popupRect.height - offset ∧
      horizontallyCentered triggerRect popupRect
        (positionsFor triggerRect popupRect offset PopupPlacement.top)) ∧
    ((positionsFor triggerRect popupRect offset PopupPlacement.bottom).top
        = triggerRect.bottom + offset ∧
      horizontallyCentered triggerRect popupRect
        (positionsFor triggerRect popupRect offset PopupPlacement.bottom)) ∧
    ((positionsFor triggerRect popupRect offset PopupPlacement.left).left
        = triggerRect.left - popupRect.width - offset ∧
      verticallyCentered triggerRect popupRect
        (positionsFor triggerRect popupRect offset PopupPlacement.left)) ∧
    ((positionsFor triggerRect popupRect offset PopupPlacement.right).left
        = triggerRect.right + offset ∧
      verticallyCentered triggerRect popupRect
        (positionsFor triggerRect popupRect offset PopupPlacement.right)) := by
  refine ⟨⟨rfl, ?_⟩, ⟨rfl, ?_⟩, ⟨rfl, ?_⟩, ⟨rfl, ?_⟩⟩ <;>
    simp only [horizontallyCentered, verticallyCentered, positionsFor] <;> ring

/-- C3: the per-entry `offset` field of a PopupSpec is ignored — for every
value of it, opening the TOP hover popup of `cfgWithOffset o` yields the
position computed from the global `defaultOffset` (8): `top = 100 − 40 − 8
= 52`, never `100 − 40 − o`.  This refutes the claim that a spec-level
offset overrides the global default (with `o = some 12` the claimed top
would be 48). -/
theorem C3_per_entry_offset_ignored (o : Option ℚ) :
    calculatePosition (cfgWithOffset o) envCentered none PopupPlacement.top
      = some { position := { top := 52, left := 50 }, placement := PopupPlacement.top } ∧
    (fireFirstTimer (handleOpen (cfgWithOffset o) envCentered PopupPlacement.top
        PopupType.hover initialState)).activePopup
      = some { placement := PopupPlacement.top, type := PopupType.hover,
               position := some { top := 52, left := 50 } } := by
  constructor
  · norm_num [calculatePosition, flipDisabledFor, lookupSpec, lookupEntry, cfgWithOffset,
      plainSpec, envCentered, positionsFor, Rect.bottom, Rect.right, List.find?]
  · norm_num [fireFirstTimer, handleOpen, lookupSpec, lookupEntry, cfgWithOffset, plainSpec,
      envCentered, cancelPending, clearTimeout, setTimeout, openTimerAction, calculatePosition,
      flipDisabledFor, positionsFor, initialState, runTimerAction, Rect.bottom, Rect.right,
      List.find?]

/-- C4: a per-entry `disableFlip` on a click spec does not suppress
flipping for a click-triggered open — the disableFlip lookup is keyed by
the currently active popup's type (defaulting to hover), not by the type
being opened.  With only a TOP click spec carrying `disableFlip: true`, a
near-top-edge trigger and the global flag off, the first click open still
resolves to BOTTOM, contradicting the claim that the requested base
placement is kept unconditionally. -/
theorem C4_click_disableFlip_ignored :
    (lookupSpec cfgClickNoFlip PopupPlacement.top PopupType.click).map PopupSpec.disableFlip
        = some true ∧
    envNearTop.disableFlip = false ∧
    (fireFirstTimer (handleOpen cfgClickNoFlip envNearTop PopupPlacement.top PopupType.click
        initialState)).activePopup
      = some { placement := PopupPlacement.bottom, type := PopupType.click,
               position := some { top := 48, left := 350 } } := by
  refine ⟨rfl, rfl, ?_⟩
  norm_num [fireFirstTimer, handleOpen, lookupSpec, lookupEntry, cfgClickNoFlip, plainSpec,
    envNearTop, cancelPending, clearTimeout, setTimeout, openTimerAction, calculatePosition,
    flipDisabledFor, positionsFor, initialState, runTimerAction, Rect.bottom, Rect.right,
    List.find?]

/-- C5: along every sequence of open/close intents (and timer firings), at
most one timer is pending at any time, and every new open or close
schedule leaves exactly its own freshly armed timer — the previously
pending timer is cancelled first, so a superseded timer's callback can
never fire and only the final intent's callback remains fireable. -/
theorem C5_at_most_one_pending_timer (config : Config) (env : Env) (s : CompState)
    (l : List Intent) (h : SchedInv s) :
    SchedInv (runIntents config env s l) ∧
    (runIntents config env s l).timers.length ≤ 1 ∧
    (∀ p t spec, lookupSpec config p t = some spec →
        (handleOpen config env p t (runIntents config env s l)).timers
          = [((runIntents config env s l).nextId,
              (if t = PopupType.hover then spec.openDelay.getD 0 else 0),
              openTimerAction config env
                ((runIntents config env s l).activePopup.map ActivePopup.type) p t)]) ∧
    (∀ ap spec, (runIntents config env s l).activePopup = some ap →
        lookupSpec config ap.placement ap.type = some spec →
        (handleClose config (runIntents config env s l)).timers
          = [((runIntents config env s l).nextId,
              (if ap.type = PopupType.hover then spec.closeDelay.getD 0 else 0),
              TimerAction.fireClose ap.placement ap.type)]) := by
  have h1 := schedInv_runIntents config env l s h
  refine ⟨h1, h1.2, ?_, ?_⟩
  · intro p t spec hl
    rw [handleOpen_eq config env p t _ spec h1 hl]
  · intro ap spec hap hl
    rw [handleClose_eq config _ ap spec h1 hap hl]

/-- C5 witness: an open→fire→close→open run (the superseding-open scenario)
from the initial state keeps the scheduler invariant. -/
theorem C5_witness :
    SchedInv initialState ∧
    SchedInv (runIntents cfgHoverTop envCentered initialState
      [Intent.openPopup PopupPlacement.top PopupType.hover, Intent.timerFire,
       Intent.closePopup, Intent.openPopup PopupPlacement.top PopupType.hover]) :=
  ⟨by decide,
   (C5_at_most_one_pending_timer cfgHoverTop envCentered initialState
      [Intent.openPopup PopupPlacement.top PopupType.hover, Intent.timerFire,
       Intent.closePopup, Intent.openPopup PopupPlacement.top PopupType.hover]
      (by decide)).1⟩

/-- C6: a trigger click issues an open for every configured click pair in
configuration iteration order, and the resulting state has exactly one
armed timer — that of the last click pair iterated; when it fires, exactly
one overlay (the last pair's, at its resolved placement) is the active
one, and only that pair's onOpen callback is invoked. -/
theorem C6_click_last_pair_wins (config : Config) (env : Env) (s : CompState)
    (pLast : PopupPlacement)
    (h : SchedInv s) (hnd : (config.map Prod.fst).Nodup)
    (hlast : (clickPlacements config).getLast? = some pLast) :
    (onTriggerClick config env s).isOpen = s.isOpen ∧
    (onTriggerClick config env s).activePopup = s.activePopup ∧
    (∃ id, (onTriggerClick config env s).timers
      = [(id, 0, openTimerAction config env (s.activePopup.map ActivePopup.type)
            pLast PopupType.click)]) ∧
    (fireFirstTimer (onTriggerClick config env s)).isOpen = true ∧
    (fireFirstTimer (onTriggerClick config env s)).activePopup
      = some { placement :=
                 ((calculatePosition config env (s.activePopup.map ActivePopup.type)
                     pLast).map CalcResult.placement).getD pLast
               type := PopupType.click
               position :=
                 (calculatePosition config env (s.activePopup.map ActivePopup.type)
                     pLast).map CalcResult.position } ∧
    (fireFirstTimer (onTriggerClick config env s)).log
      = s.log ++ [CbEvent.onOpen pLast PopupType.click] := by
  have hmem : ∀ pe ∈ config, ∀ spec, pe.2.click = some spec →
      lookupSpec config pe.1 PopupType.click = some spec := by
    intro pe hpe spec hc
    have hls := lookupSpec_click_of_mem config pe.1 pe.2 hnd hpe
    rw [hc] at hls
    exact hls
  obtain ⟨j1, j2, j3, j4, j5, j6⟩ := clickFold_spec config env config s h hmem
  obtain ⟨id, hid⟩ := j6 pLast (by unfold clickPlacements at hlast; exact hlast)
  have hfire : fireFirstTimer (onTriggerClick config env s)
      = runTimerAction
          (openTimerAction config env (s.activePopup.map ActivePopup.type) pLast
            PopupType.click)
          { onTriggerClick config env s with timers := [] } := by
    unfold fireFirstTimer onTriggerClick
    rw [hid]
  refine ⟨j2, j3, ⟨id, hid⟩, ?_, ?_, ?_⟩ <;>
    rw [hfire] <;>
    simp [runTimerAction, openTimerAction, onTriggerClick, j4]

/-- C6 witness: a configuration with TOP and RIGHT click pairs; clicking
from the initial state ends with the RIGHT pair's overlay active. -/
theorem C6_witness :
    SchedInv initialState ∧
    (cfgTwoClicks.map Prod.fst).Nodup ∧
    (clickPlacements cfgTwoClicks).getLast? = some PopupPlacement.right ∧
    (fireFirstTimer (onTriggerClick cfgTwoClicks envCentered initialState)).log
      = initialState.log ++ [CbEvent.onOpen PopupPlacement.right PopupType.click] :=
  ⟨by decide, by decide, by decide,
   (C6_click_last_pair_wins cfgTwoClicks envCentered initialState PopupPlacement.right
      (by decide) (by decide) (by decide)).2.2.2.2.2⟩

/-- C7: an open request for a (placement, mode) pair with no configured
PopupSpec is a silent no-op — the whole component state (visibility,
timers, callback log) is returned unchanged. -/
theorem C7_missing_spec_noop (config : Config) (env : Env) (p : PopupPlacement)
    (t : PopupType) (s : CompState) (h : lookupSpec config p t = none) :
    handleOpen config env p t s = s := by
  unfold handleOpen
  rw [h]

/-- C7 witness: an open against a configuration with no hover entry. -/
theorem C7_missing_spec_noop_witness :
    lookupSpec cfgClickTop PopupPlacement.top PopupType.hover = none ∧
    handleOpen cfgClickTop envCentered PopupPlacement.top PopupType.hover initialState
      = initialState :=
  ⟨rfl, C7_missing_spec_noop cfgClickTop envCentered PopupPlacement.top PopupType.hover
     initialState rfl⟩

/-- C8 counterexample: in the §8 Escape scenario (click overlay open,
Escape pressed, close timer fires) the focus-return to the trigger is
emitted strictly before the close resolves — the onClose callback appears
after focusTrigger in the observable log — refuting the claim that focus
returns synchronously after the close resolves. -/
theorem C8_focus_before_close_resolves :
    escapeScenario.log
      = [CbEvent.onOpen PopupPlacement.top PopupType.click, CbEvent.focusTrigger,
         CbEvent.onClose PopupPlacement.top PopupType.click] ∧
    escapeScenario.log.indexOf CbEvent.focusTrigger
      < escapeScenario.log.indexOf (CbEvent.onClose PopupPlacement.top PopupType.click) := by
  have hlog : escapeScenario.log
      = [CbEvent.onOpen PopupPlacement.top PopupType.click, CbEvent.focusTrigger,
         CbEvent.onClose PopupPlacement.top PopupType.click] := by
    norm_num [escapeScenario, fireFirstTimer, handleOpen, handleClose, onDocumentKeyDown,
      lookupSpec, lookupEntry, cfgClickTop, plainSpec, envCentered, cancelPending,
      clearTimeout, setTimeout, openTimerAction, calculatePosition, flipDisabledFor,
      positionsFor, initialState, runTimerAction, Rect.bottom, Rect.right, List.find?]
  refine ⟨hlog, ?_⟩
  rw [hlog]
  decide

/-- C8 (amended): while an overlay is open, an Escape keydown schedules a
close with the active spec's delay and synchronously returns focus to the
trigger within the Escape handler — after the close is requested but
before it resolves (the overlay is still open when focus returns); once
the pending close timer fires the overlay closes and onClose is invoked. -/
theorem C8_escape_close_and_focus (config : Config) (s : CompState) (ap : ActivePopup)
    (spec : PopupSpec) (h : SchedInv s) (hopen : s.isOpen = true)
    (hap : s.activePopup = some ap)
    (hl : lookupSpec config ap.placement ap.type = some spec) :
    (onDocumentKeyDown config Key.escape s).log = s.log ++ [CbEvent.focusTrigger] ∧
    (onDocumentKeyDown config Key.escape s).isOpen = true ∧
    (onDocumentKeyDown config Key.escape s).timers
      = [(s.nextId, (if ap.type = PopupType.hover then spec.closeDelay.getD 0 else 0),
          TimerAction.fireClose ap.placement ap.type)] ∧
    (fireFirstTimer (onDocumentKeyDown config Key.escape s)).isOpen = false ∧
    (fireFirstTimer (onDocumentKeyDown config Key.escape s)).log
      = s.log ++ [CbEvent.focusTrigger, CbEvent.onClose ap.placement ap.type] := by
  have hcl := handleClose_eq config s ap spec h hap hl
  have hkd : onDocumentKeyDown config Key.escape s
      = { handleClose config s with
            log := (handleClose config s).log ++ [CbEvent.focusTrigger] } := by
    unfold onDocumentKeyDown
    rw [hopen]
    rfl
  rw [hkd, hcl]
  refine ⟨rfl, hopen, rfl, ?_, ?_⟩ <;>
    simp [fireFirstTimer, runTimerAction]

/-- C8 witness: a concrete open click state; Escape schedules the close,
focus returns while still open, and firing the timer closes. -/
theorem C8_escape_close_and_focus_witness :
    SchedInv sOpenClick ∧ sOpenClick.isOpen = true ∧
    (fireFirstTimer (onDocumentKeyDown cfgClickTop Key.escape sOpenClick)).isOpen = false :=
  ⟨by decide, rfl,
   (C8_escape_close_and_focus cfgClickTop sOpenClick
      { placement := PopupPlacement.top, type := PopupType.click, position := none }
      plainSpec (by decide) rfl rfl rfl).2.2.2.1⟩

/-- C9: the rendered overlay carries role=tooltip, aria-live polite for
hover and assertive for click, aria-modal exactly for click, tabindex 0
for click and −1 for hover, and data-placement equal to the stored
placement — which, for a popup opened via handleOpen, is the resolved
(possibly flipped) placement of the pre-calculation. -/
theorem C9_overlay_attributes :
    (∀ (b : Bool) (p : PopupPlacement) (pos : Option Position),
        (overlayAttrs b { placement := p, type := PopupType.hover, position := pos }).role
            = "tooltip" ∧
        (overlayAttrs b { placement := p, type := PopupType.click, position := pos }).role
            = "tooltip" ∧
        (overlayAttrs b { placement := p, type := PopupType.hover, position := pos }).ariaLive
            = "polite" ∧
        (overlayAttrs b { placement := p, type := PopupType.click, position := pos }).ariaLive
            = "assertive" ∧
        (overlayAttrs b { placement := p, type := PopupType.hover, position := pos }).ariaModal
            = false ∧
        (overlayAttrs b { placement := p, type := PopupType.click, position := pos }).ariaModal
            = true ∧
        (overlayAttrs b { placement := p, type := PopupType.hover, position := pos }).tabIndex
            = -1 ∧
        (overlayAttrs b { placement := p, type := PopupType.click, position := pos }).tabIndex
            = 0 ∧
        (overlayAttrs b { placement := p, type := PopupType.hover, position := pos
            }).dataPlacement = p ∧
        (overlayAttrs b { placement := p, type := PopupType.click, position := pos
            }).dataPlacement = p) ∧
    (∀ (config : Config) (env : Env) (s : CompState) (p : PopupPlacement) (t : PopupType)
        (spec : PopupSpec), SchedInv s → lookupSpec config p t = some spec →
        ((fireFirstTimer (handleOpen config env p t s)).activePopup.map ActivePopup.placement)
          = some (((calculatePosition config env (s.activePopup.map ActivePopup.type) p).map
              CalcResult.placement).getD p)) := by
  constructor
  · intro b p pos
    exact ⟨rfl, rfl, rfl, rfl, rfl, rfl, rfl, rfl, rfl, rfl⟩
  · intro config env s p t spec h hl
    rw [handleOpen_eq config env p t s spec h hl]
    simp [fireFirstTimer, runTimerAction, openTimerAction]

/-- C9 witness: opening the TOP click pair near the top edge, the stored
placement is the resolved one. -/
theorem C9_overlay_attributes_witness :
    lookupSpec cfgClickTop PopupPlacement.top PopupType.click = some plainSpec ∧
    ((fireFirstTimer (handleOpen cfgClickTop envNearTop PopupPlacement.top PopupType.click
        initialState)).activePopup.map ActivePopup.placement)
      = some (((calculatePosition cfgClickTop envNearTop
          (initialState.activePopup.map ActivePopup.type) PopupPlacement.top).map
            CalcResult.placement).getD PopupPlacement.top) :=
  ⟨rfl, C9_overlay_attributes.2 cfgClickTop envNearTop initialState PopupPlacement.top
     PopupType.click plainSpec (by decide) rfl⟩

/-- C10: when the active overlay's mode is click, a mouse-leave on the
trigger is a no-op — the whole component state (visibility, timers, log)
is unchanged and no close is scheduled. -/
theorem C10_click_mouseleave_noop (config : Config) (s : CompState) (ap : ActivePopup)
    (hap : s.activePopup = some ap) (ht : ap.type = PopupType.click) :
    onTriggerMouseLeave config s = s := by
  unfold onTriggerMouseLeave
  rw [hap]
  simp [ht]

/-- C10 witness: mouse-leave on an open click overlay changes nothing. -/
theorem C10_click_mouseleave_noop_witness :
    sOpenClick.activePopup
      = some { placement := PopupPlacement.top, type := PopupType.click, position := none } ∧
    onTriggerMouseLeave cfgClickTop sOpenClick = sOpenClick :=
  ⟨rfl, C10_click_mouseleave_noop cfgClickTop sOpenClick
     { placement := PopupPlacement.top, type := PopupType.click, position := none } rfl rfl⟩

end Tooltip
